import Mathlib

/-
Shallow embedding of the content-enhancer scoring engine
(repository vamsi-op/content-enhancer).

Embedded source files:
  * src/api/analyzers/seo_analyzer.py        (class SEOAnalyzer)
  * src/backend/analyzers/serp_analyzer.py   (class SERPAnalyzer)
  * src/api/analyzers/aeo_analyzer.py        (class AEOAnalyzer)
  * src/backend/analyzers/humanization_analyzer.py (class HumanizationAnalyzer)
  * src/backend/analyzers/differentiation_analyzer.py (class DifferentiationAnalyzer)
  * src/backend/app.py / src/api/index.py    (aggregation: analyze_content,
    _get_top_recommendations)

Modelling conventions:
  * Python ints are `Int` (scores) or `Nat` (counts); Python floats are `ℚ`.
    All float computations embedded here were checked to agree exactly with
    their rational counterparts on the relevant ranges (for example
    `int(n*0.4) = 2*n/5` and `int(n*0.6) = 3*n/5` hold for every natural
    `n < 100000` under IEEE-754 double arithmetic, and `round(s/5, 1)`
    returns `s/5` exactly for every integer `0 ≤ s ≤ 500`).
  * Python division raises ZeroDivisionError on a zero denominator; it is
    embedded as the `Option`-valued `pydiv`, and every analyzer entry point
    is `Option`-valued so that an unguarded division would surface as `none`.
  * The analyzers observe the input text only through a fixed set of
    primitive extractions (word counts, regex hit counts, substring flags,
    the textstat Flesch score, the math.sqrt-based sentence-length standard
    deviation).  Each extraction is one field of the per-analyzer input
    structure; the scoring logic downstream of those extractions is
    translated line by line.  External libraries (textstat, math.sqrt, the
    network scraper) are abstracted as input fields.
  * Strings interpolated from floats use the display helper `fmt1`; these
    strings never influence scoring and no theorem depends on their exact
    rendering.
-/

namespace ContentEnhancer

/-- Python `/` on numbers: fails (ZeroDivisionError) when the denominator is
zero, otherwise exact rational division. -/
def pydiv (a b : ℚ) : Option ℚ := if b = 0 then none else some (a / b)

/-- Python `str.split()` with no argument: split on whitespace runs,
dropping empty pieces. -/
def pySplitWs (s : String) : List String :=
  (s.split Char.isWhitespace).filter (fun w => w ≠ "")

/-- Python substring containment: `strMentions hay needle` is the Python
expression `needle in hay`. -/
def strMentions (hay needle : String) : Bool :=
  hay.toList.tails.any (fun t => needle.toList.isPrefixOf t)

/-- Python `round` to an integer (round-half-to-even), on rationals. -/
def pyRoundHalfEven (q : ℚ) : ℤ :=
  let f := ⌊q⌋
  let r := q - f
  if r < 1/2 then f else if 1/2 < r then f + 1 else if f % 2 = 0 then f else f + 1

/-- Python `round(x, 1)`. -/
def pyRound1 (q : ℚ) : ℚ := (pyRoundHalfEven (q * 10) : ℚ) / 10

/-- Display helper standing in for Python one-decimal float formatting
inside f-strings; used only inside report strings, never for scoring. -/
def fmt1 (q : ℚ) : String := toString (pyRound1 q)

/-- Report returned by the SEO, AEO, humanization and differentiation
analyzers: the `score` / `issues` / `recommendations` part of the Python
result dict.  The open `details` mapping is diagnostic output and is not
modelled except where a claim needs it (see `SerpReport`). -/
structure Report where
  score : Int
  issues : List String
  recommendations : List String
deriving DecidableEq

/-- One extracted header record `{level, text}` (for example
`{'level': 'h1', 'text': 'Title'}`). -/
structure Header where
  level : String
  text : String
deriving DecidableEq

/- ===================== SEOAnalyzer ===================== -/

/-- Input features of `SEOAnalyzer.analyze(text, headers, meta_description,
target_keyword)` (src/api/analyzers/seo_analyzer.py).  `wordCount` is
`len(text.split())` (computed identically at lines 20 and 120),
`flesch` abstracts the external `textstat.flesch_reading_ease(text)` call,
and `keywordCount` is `text.lower().count(target_keyword.lower())`. -/
structure SEOInput where
  wordCount : Nat
  flesch : ℚ
  headers : List Header
  metaDescription : String
  targetKeyword : String
  keywordCount : Nat
deriving DecidableEq

namespace SEOAnalyzer

/-- seo_analyzer.py lines 30-40, score part of the first word-count pass. -/
def wordCountDeduction (wc : Nat) : Nat :=
  if wc < 300 then 20 else if wc < 600 then 10 else 0

/-- seo_analyzer.py lines 30-40, issues of the first word-count pass. -/
def wordCountIssues (wc : Nat) : List String :=
  if wc < 300 then
    ["Content is too short (" ++ toString wc ++ " words). Aim for 800-2000 words"]
  else if wc < 600 then
    ["Content is short (" ++ toString wc ++ " words). Consider adding more depth"]
  else if wc > 3000 then
    ["Very long content (" ++ toString wc ++ " words) - ensure it stays engaging"]
  else []

/-- seo_analyzer.py lines 30-40, recommendations of the first word-count pass. -/
def wordCountRecs (wc : Nat) : List String :=
  if wc < 300 then
    ["Expand content with more details, examples, and value"]
  else if wc < 600 then
    ["Add more comprehensive information (aim for 1000+ words)"]
  else if wc > 3000 then
    ["Consider breaking into multiple articles or adding clear navigation"]
  else []

/-- seo_analyzer.py lines 142-164 (`_analyze_keyword_density`): density is
`(count * keyword_words / total_words) * 100` when `total_words > 0`,
else `0`. -/
def analyzeKeywordDensity (keywordCount keywordWords totalWords : Nat) : Option ℚ :=
  if 0 < totalWords then
    (pydiv ((keywordCount * keywordWords : Nat) : ℚ) (totalWords : ℚ)).map (fun d => d * 100)
  else pure 0

/-- Value of the density computation; `analyzeKeywordDensity` always returns
`some` of this. -/
def densityVal (keywordCount keywordWords totalWords : Nat) : ℚ :=
  if 0 < totalWords then ((keywordCount * keywordWords : Nat) : ℚ) / (totalWords : ℚ) * 100
  else 0

/-- seo_analyzer.py lines 47-54, score part of the keyword-density branch. -/
def keywordDeduction (density : ℚ) : Nat :=
  if density < 1/2 then 15 else if 3 < density then 10 else 0

/-- seo_analyzer.py lines 47-54, issues of the keyword-density branch. -/
def keywordIssues (kw : String) (count : Nat) (density : ℚ) : List String :=
  if density < 1/2 then
    ["Keyword \"" ++ kw ++ "\" appears only " ++ toString count ++ " times ("
      ++ fmt1 density ++ "% density)"]
  else if 3 < density then
    ["Keyword density too high: " ++ fmt1 density ++ "% - may look spammy"]
  else []

/-- seo_analyzer.py lines 47-54, recommendations of the keyword-density branch. -/
def keywordRecs (density : ℚ) : List String :=
  if density < 1/2 then ["Increase keyword to 5-7 mentions (1.5% density)"]
  else if 3 < density then
    ["Reduce keyword usage to maintain natural flow (aim for 1-2% density)"]
  else []

/-- seo_analyzer.py lines 63-73, score part of the readability branch
(`flesch` is the textstat Flesch reading-ease value). -/
def readabilityDeduction (flesch : ℚ) : Nat :=
  if flesch < 30 then 15 else if flesch < 50 then 8 else 0

/-- seo_analyzer.py lines 63-73, issues of the readability branch. -/
def readabilityIssues (flesch : ℚ) : List String :=
  if flesch < 30 then
    ["Content is very difficult to read (Flesch score: " ++ fmt1 flesch ++ ")"]
  else if flesch < 50 then
    ["Content is somewhat difficult to read (Flesch score: " ++ fmt1 flesch ++ ")"]
  else []

/-- seo_analyzer.py lines 63-73, recommendations of the readability branch. -/
def readabilityRecs (flesch : ℚ) : List String :=
  if flesch < 30 then
    ["Simplify sentences and use shorter words to improve readability"]
  else if flesch < 50 then
    ["Consider breaking complex sentences into simpler ones"]
  else []

/-- seo_analyzer.py line 216: `any(h['level'] == 'h1' for h in headers)`. -/
def hasH1 (hs : List Header) : Bool := hs.any (fun h => h.level == "h1")

/-- seo_analyzer.py line 217. -/
def hasH2 (hs : List Header) : Bool := hs.any (fun h => h.level == "h2")

/-- seo_analyzer.py lines 220-223: case-insensitive substring check of the
keyword against every header text. -/
def keywordInHeaders (kw : String) (hs : List Header) : Bool :=
  hs.any (fun h => strMentions h.text.toLower kw.toLower)

/-- seo_analyzer.py lines 76-100: header-structure deductions.  The Python
`if headers:` truthiness test is emptiness of the typed header list (the
defensive string-normalisation of `_analyze_headers` is the identity on
typed `Header` records). -/
def headerDeduction (kw : String) (hs : List Header) : Nat :=
  if hs.isEmpty then 15
  else
    (if hasH1 hs then 0 else 20) +
    (if hasH1 hs && hasH2 hs then 0 else 10) +
    (if kw ≠ "" && !(keywordInHeaders kw hs) then 10 else 0)

/-- seo_analyzer.py lines 76-100, issues of the header branch. -/
def headerIssues (kw : String) (hs : List Header) : List String :=
  if hs.isEmpty then ["No header structure detected"]
  else
    (if hasH1 hs then [] else ["No H1 header found"]) ++
    (if hasH1 hs && hasH2 hs then []
     else ["Header hierarchy is incomplete (missing H2 or H3)"]) ++
    (if kw ≠ "" && !(keywordInHeaders kw hs) then
      ["Target keyword \x27" ++ kw ++ "\x27 not found in any headers"]
     else [])

/-- seo_analyzer.py lines 76-100, recommendations of the header branch. -/
def headerRecs (kw : String) (hs : List Header) : List String :=
  if hs.isEmpty then ["Add clear headers (H1, H2, H3) to organize content"]
  else
    (if hasH1 hs then [] else ["Add a clear H1 header as the main title"]) ++
    (if hasH1 hs && hasH2 hs then []
     else ["Use proper header hierarchy: H1 \x27 H2 \x27 H3"]) ++
    (if kw ≠ "" && !(keywordInHeaders kw hs) then
      ["Include \x27" ++ kw ++ "\x27 in at least one header"]
     else [])

/-- seo_analyzer.py lines 103-117: meta-description deductions (`len` is the
character count). -/
def metaDeduction (meta : String) : Nat :=
  if meta = "" then 15
  else if meta.length < 120 then 8
  else if 160 < meta.length then 5
  else 0

/-- seo_analyzer.py lines 103-117, issues of the meta-description branch. -/
def metaIssues (meta : String) : List String :=
  if meta = "" then ["No meta description detected"]
  else if meta.length < 120 then
    ["Meta description too short: " ++ toString meta.length ++ " characters"]
  else if 160 < meta.length then
    ["Meta description too long: " ++ toString meta.length ++ " characters"]
  else []

/-- seo_analyzer.py lines 103-117, recommendations of the meta branch. -/
def metaRecs (meta : String) : List String :=
  if meta = "" then ["Add meta description (150-160 characters)"]
  else if meta.length < 120 then ["Expand meta description to 150-160 characters"]
  else if 160 < meta.length then ["Shorten meta description to 150-160 characters"]
  else []

/-- seo_analyzer.py lines 119-130: the second content-length pass (the
inherited duplication quirk), recomputing `len(text.split())` and deducting
again for short content. -/
def contentLengthDeduction (wc : Nat) : Nat :=
  if wc < 300 then 20 else if wc < 800 then 10 else 0

/-- seo_analyzer.py lines 119-130, issues of the second content-length pass. -/
def contentLengthIssues (wc : Nat) : List String :=
  if wc < 300 then ["Content too short: " ++ toString wc ++ " words"]
  else if wc < 800 then ["Content length moderate: " ++ toString wc ++ " words"]
  else []

/-- seo_analyzer.py lines 119-130, recommendations of the second pass. -/
def contentLengthRecs (wc : Nat) : List String :=
  if wc < 300 then ["Expand content to at least 1,000 words for better SEO"]
  else if wc < 800 then
    ["Consider expanding to 1,500-2,500 words for competitive keywords"]
  else []

/-- seo_analyzer.py lines 42-57: the keyword block runs only when
`target_keyword` is truthy (non-empty); it yields a deduction, issues and
recommendations. -/
def keywordBlock (i : SEOInput) : Option (Nat × List String × List String) :=
  if i.targetKeyword = "" then pure (0, [], [])
  else do
    let density ← analyzeKeywordDensity i.keywordCount
      (pySplitWs i.targetKeyword).length i.wordCount
    pure (keywordDeduction density,
      keywordIssues i.targetKeyword i.keywordCount density,
      keywordRecs density)

/-- Value of `keywordBlock`; it always returns `some` of this. -/
def keywordBlockVal (i : SEOInput) : Nat × List String × List String :=
  if i.targetKeyword = "" then (0, [], [])
  else
    let density := densityVal i.keywordCount (pySplitWs i.targetKeyword).length i.wordCount
    (keywordDeduction density,
      keywordIssues i.targetKeyword i.keywordCount density,
      keywordRecs density)

/-- Report assembly of `SEOAnalyzer.analyze` once the keyword block has been
resolved: score starts at 100, each block deducts independently, the final
score is floored at 0 and the recommendations are truncated to the first 3
(seo_analyzer.py lines 132-140). -/
def analyzeBody (i : SEOInput) (kwPart : Nat × List String × List String) : Report :=
  { score := max 0 (100 - wordCountDeduction i.wordCount - kwPart.1
      - readabilityDeduction i.flesch - headerDeduction i.targetKeyword i.headers
      - metaDeduction i.metaDescription - contentLengthDeduction i.wordCount)
    issues := wordCountIssues i.wordCount ++ kwPart.2.1
      ++ readabilityIssues i.flesch ++ headerIssues i.targetKeyword i.headers
      ++ metaIssues i.metaDescription ++ contentLengthIssues i.wordCount
    recommendations := (wordCountRecs i.wordCount ++ kwPart.2.2
      ++ readabilityRecs i.flesch ++ headerRecs i.targetKeyword i.headers
      ++ metaRecs i.metaDescription ++ contentLengthRecs i.wordCount).take 3 }

/-- seo_analyzer.py lines 9-140 (`SEOAnalyzer.analyze`). -/
def analyze (i : SEOInput) : Option Report := do
  let kwPart ← keywordBlock i
  pure (analyzeBody i kwPart)

/-- The report `analyze` always succeeds with. -/
def analyzeVal (i : SEOInput) : Report := analyzeBody i (keywordBlockVal i)

end SEOAnalyzer

/- ===================== SERPAnalyzer ===================== -/

/-- Competitor aggregate statistics (`serp_data` dict): either the result of
`_analyze_serp_results` over scraped pages (network-dependent, abstracted as
an input) or the fixed fallback of `_get_fallback_serp_data`.  All fields
are Python ints produced by `int()` of non-negative quantities. -/
structure SerpPatterns where
  hasStats : Nat
  hasExamples : Nat
  hasComparisons : Nat
  hasLists : Nat
  avgStats : Nat
deriving DecidableEq

/-- Aggregate over competitor pages (word counts, topic counts, patterns). -/
structure SerpData where
  avgWordCount : Nat
  avgTopics : Nat
  patterns : SerpPatterns
deriving DecidableEq

/-- Rank prediction record returned by `_predict_ranking`
(serp_analyzer.py lines 270-295). -/
structure RankPrediction where
  position : Nat
  page : Nat
deriving DecidableEq

/-- Report of `SERPAnalyzer.analyze`: scoring triple plus the modelled part
of the `details` dict (`serp_data`, `ranking_prediction` and its optional
`with_improvements` sub-entry).  `serpData = none` encodes
`details['serp_data'] = None`. -/
structure SerpReport where
  score : Int
  issues : List String
  recommendations : List String
  serpData : Option SerpData
  rankingPrediction : Option RankPrediction
  withImprovements : Option RankPrediction
deriving DecidableEq

/-- Input features of `SERPAnalyzer.analyze(text, target_keyword, headers)`
(src/backend/analyzers/serp_analyzer.py).  `resultsFound` is
`len(serp_results)` from the scraper collaborator and `scraperData` is the
aggregate `_analyze_serp_results` would produce from those pages (both
network-dependent and abstracted as inputs); `userWordCount` is
`len(text.split())`, `headerCount` is `len(headers)` (0 when falsy), and the
remaining fields are the regex extractions of `_analyze_content_elements`. -/
structure SerpInput where
  targetKeyword : String
  resultsFound : Nat
  scraperData : SerpData
  userWordCount : Nat
  headerCount : Nat
  statsCount : Nat
  examplesCount : Nat
  hasComparison : Bool
deriving DecidableEq

namespace SERPAnalyzer

/-- serp_analyzer.py lines 160-172 (`_get_fallback_serp_data`). -/
def fallbackSerpData : SerpData :=
  { avgWordCount := 2500, avgTopics := 8
    patterns := { hasStats := 75, hasExamples := 70, hasComparisons := 60
                  hasLists := 85, avgStats := 6 } }

/-- serp_analyzer.py line 48: `user_word_count / avg_word_count if
avg_word_count > 0 else 0`. -/
def wordRatioVal (userWords avgWords : Nat) : Option ℚ :=
  if 0 < avgWords then pydiv (userWords : ℚ) (avgWords : ℚ) else pure 0

/-- serp_analyzer.py lines 62-69: word-count comparison deductions. -/
def wordRatioDeduction (r : ℚ) : Nat :=
  if r < 6/10 then 25 else if r < 8/10 then 15 else 0

/-- serp_analyzer.py lines 62-69, issues (the Python `int((1-ratio)*100)`
is the floor of a non-negative float in the branch where it is used). -/
def wordRatioIssues (r : ℚ) (userWords avgWords : Nat) : List String :=
  if r < 6/10 then
    ["Content " ++ toString (⌊(1 - r) * 100⌋) ++ "% shorter than SERP average"]
  else if r < 8/10 then
    ["Content slightly shorter than SERP leaders (" ++ toString userWords
      ++ " vs " ++ toString avgWords ++ " avg)"]
  else []

/-- serp_analyzer.py lines 62-69, recommendations (`int(avg*0.9)` agrees
with `9*avg/10` for the relevant magnitudes). -/
def wordRatioRecs (r : ℚ) (userWords avgWords : Nat) : List String :=
  if r < 6/10 then
    ["Expand to " ++ toString (9 * avgWords / 10) ++ "+ words covering missing subtopics"]
  else if r < 8/10 then
    ["Add " ++ toString (avgWords - userWords) ++ " more words of valuable content"]
  else []

/-- serp_analyzer.py lines 247-268 (`_suggest_missing_topics`): first
matching category of the static keyword-to-topics table, truncated to the
topic deficit, with a generic fallback list. -/
def suggestMissingTopics (kw : String) (userCount avgCount : Nat) : List String :=
  let topicMap : List (String × List String) :=
    [("laptop", ["Price comparisons", "Battery life tests", "Performance benchmarks", "User reviews"]),
     ("phone", ["Camera comparisons", "Battery tests", "Price analysis", "User ratings"]),
     ("software", ["Feature comparison", "Pricing tiers", "User testimonials", "Integration guides"]),
     ("service", ["Pricing breakdown", "Customer reviews", "Alternatives comparison", "Setup guide"]),
     ("product", ["Specs comparison", "Price analysis", "Customer feedback", "Best use cases"]),
     ("guide", ["Step-by-step tutorial", "Common mistakes", "Expert tips", "FAQ section"]),
     ("review", ["Pros and cons", "Alternatives", "Pricing", "User feedback"])]
  match topicMap.find? (fun p => strMentions kw.toLower p.1) with
  | some p => p.2.take (avgCount - userCount)
  | none => ["Detailed comparisons", "User testimonials", "Expert analysis", "Pricing breakdown"]

/-- serp_analyzer.py lines 84-90: topic-coverage deduction. -/
def topicDeduction (userTopics avgTopics : Nat) : Nat :=
  if (userTopics : ℚ) < (avgTopics : ℚ) * (6/10) then 20 else 0

/-- serp_analyzer.py lines 84-90, issues of the topic-coverage branch. -/
def topicIssues (kw : String) (userTopics avgTopics : Nat) : List String :=
  if (userTopics : ℚ) < (avgTopics : ℚ) * (6/10) then
    let missing := suggestMissingTopics kw userTopics avgTopics
    ["Missing " ++ toString (avgTopics - userTopics) ++ " key subtopics that top rankers cover:"]
      ++ (if missing ≠ [] then ["\x86 " ++ String.intercalate ", " missing] else [])
  else []

/-- serp_analyzer.py lines 84-90, recommendation of the topic branch. -/
def topicRecs (kw : String) (userTopics avgTopics : Nat) : List String :=
  if (userTopics : ℚ) < (avgTopics : ℚ) * (6/10) then
    let missing := suggestMissingTopics kw userTopics avgTopics
    ["Add " ++ toString (avgTopics - userTopics) ++ "+ subtopics covering "
      ++ (if missing ≠ [] then String.intercalate ", " (missing.take 2)
          else "competitive topics")]
  else []

/-- serp_analyzer.py lines 97-100: comparison deduction. -/
def comparisonDeduction (hasComparison : Bool) (pct : Nat) : Nat :=
  if !hasComparison && 70 < pct then 15 else 0

/-- serp_analyzer.py lines 103-109: stats deduction (`elif` makes the two
branches mutually exclusive). -/
def statsDeduction (statsCount pct : Nat) : Nat :=
  if statsCount = 0 && 60 < pct then 15
  else if statsCount < 3 then 10
  else 0

/-- serp_analyzer.py lines 112-115: examples deduction. -/
def examplesDeduction (examplesCount pct : Nat) : Nat :=
  if examplesCount = 0 && 70 < pct then 10 else 0

/-- serp_analyzer.py lines 270-295 (`_predict_ranking`), translated from the
source: tiered base position, +5 when topic coverage is below 0.7 of the
average, and Python floor-division `(position - 1) // 10 + 1` for the page. -/
def predictRanking (score : Int) (wordRat : ℚ) (userTopics avgTopics : Nat) :
    RankPrediction :=
  let base : Nat :=
    if 85 ≤ score ∧ 9/10 ≤ wordRat then 3
    else if 75 ≤ score ∧ 8/10 ≤ wordRat then 6
    else if 65 ≤ score then 10
    else if 55 ≤ score then 15
    else if 45 ≤ score then 22
    else 35
  let position := if (userTopics : ℚ) < (avgTopics : ℚ) * (7/10) then base + 5 else base
  { position := position, page := (position - 1) / 10 + 1 }

/-- Claim-side restatement of the rank-prediction contract, written from the
spec sentence: score≥85 and ratio≥0.9 gives position 3; ≥75 and ratio≥0.8
gives 6; ≥65 gives 10; ≥55 gives 15; ≥45 gives 22; otherwise 35; then 5 is
added when the user topic count is below 0.7 of the average topic count, and
the page is the ceiling of position/10. -/
def specPredictRanking (score : Int) (wordRat : ℚ) (userTopics avgTopics : Nat) :
    RankPrediction :=
  let base : Nat :=
    if 85 ≤ score ∧ 9/10 ≤ wordRat then 3
    else if 75 ≤ score ∧ 8/10 ≤ wordRat then 6
    else if 65 ≤ score then 10
    else if 55 ≤ score then 15
    else if 45 ≤ score then 22
    else 35
  let position := if (userTopics : ℚ) < (7/10) * (avgTopics : ℚ) then base + 5 else base
  { position := position, page := (⌈(position : ℚ) / 10⌉).toNat }

/-- serp_analyzer.py lines 21-27: the fixed early return when
`target_keyword` is falsy (empty). -/
def emptyKeywordReport : SerpReport :=
  { score := 50
    issues := ["No target keyword provided"]
    recommendations := ["Specify a target keyword for SERP analysis"]
    serpData := none
    rankingPrediction := none
    withImprovements := none }

/-- serp_analyzer.py lines 121-133: recommendation added while building the
competitor fingerprint (the fingerprint strings themselves live in
`details` and are not modelled). -/
def fingerprintRecs (hasComparison : Bool) (pct : Nat) : List String :=
  if 70 < pct && !hasComparison then ["Add product/option comparison table"] else []

/-- serp_analyzer.py lines 141-143: issue appended when the predicted
position is beyond page one. -/
def predictionIssues (p : RankPrediction) : List String :=
  if 10 < p.position then
    ["Predicted Performance: Page " ++ toString p.page ++ " (positions "
      ++ toString p.position ++ "-" ++ toString (p.position + 5) ++ ")"]
  else []

/-- Report assembly of the keyword-present branch of `SERPAnalyzer.analyze`
once the competitor aggregate and word-count comparison have been resolved
(serp_analyzer.py lines 44-158): deductions, rank prediction (computed from
the pre-floor score), the hypothetical improved prediction when the score
is below 80, the floor at 0 and the truncation of recommendations to 3. -/
def mainReport (i : SerpInput) (serpData : SerpData) (r : ℚ) : SerpReport :=
    let score : Int := 100 - wordRatioDeduction r
        - topicDeduction i.headerCount serpData.avgTopics
        - comparisonDeduction i.hasComparison serpData.patterns.hasComparisons
        - statsDeduction i.statsCount serpData.patterns.hasStats
        - examplesDeduction i.examplesCount serpData.patterns.hasExamples
    let prediction := predictRanking score r i.headerCount serpData.avgTopics
    let improved := if score < 80 then
        some (predictRanking (min (score + 30) 95) (95/100) serpData.avgTopics serpData.avgTopics)
      else none
    let statsIssues : List String :=
      if i.statsCount = 0 && 60 < serpData.patterns.hasStats then
        ["Only " ++ toString i.statsCount ++ " data point (top rankers avg "
          ++ toString serpData.patterns.avgStats ++ " stats)"]
      else if i.statsCount < 3 then
        ["Only " ++ toString i.statsCount ++ " data points found"]
      else []
    let statsRecs : List String :=
      if i.statsCount = 0 && 60 < serpData.patterns.hasStats then
        ["Include " ++ toString serpData.patterns.avgStats ++ "-7 data points/statistics"]
      else []
    let comparisonIssues : List String :=
      if !i.hasComparison && 70 < serpData.patterns.hasComparisons then
        ["No product comparisons (" ++ toString serpData.patterns.hasComparisons
          ++ "% of top 10 have them)"]
      else []
    let comparisonRecs : List String :=
      if !i.hasComparison && 70 < serpData.patterns.hasComparisons then
        ["Add 2-3 product comparisons with real examples"]
      else []
    let examplesIssues : List String :=
      if i.examplesCount = 0 && 70 < serpData.patterns.hasExamples then
        ["No concrete examples or case studies found"]
      else []
    let examplesRecs : List String :=
      if i.examplesCount = 0 && 70 < serpData.patterns.hasExamples then
        ["Add 2-3 real-world examples or case studies"]
      else []
    let improvementRecs : List String :=
      match improved with
      | some p => ["With improvements: Predicted Page " ++ toString p.page
          ++ " potential (positions " ++ toString p.position ++ "-"
          ++ toString (p.position + 3) ++ ")"]
      | none => []
    { score := max 0 score
      issues := wordRatioIssues r i.userWordCount serpData.avgWordCount
        ++ topicIssues i.targetKeyword i.headerCount serpData.avgTopics
        ++ comparisonIssues ++ statsIssues ++ examplesIssues
        ++ predictionIssues prediction
      recommendations := (wordRatioRecs r i.userWordCount serpData.avgWordCount
        ++ topicRecs i.targetKeyword i.headerCount serpData.avgTopics
        ++ comparisonRecs ++ statsRecs ++ examplesRecs
        ++ fingerprintRecs i.hasComparison serpData.patterns.hasComparisons
        ++ improvementRecs).take 3
      serpData := some serpData
      rankingPrediction := some prediction
      withImprovements := improved }

/-- serp_analyzer.py lines 34-41: the aggregate actually used — the fixed
fallback when fewer than 3 scraped results were available. -/
def usedSerpData (i : SerpInput) : SerpData :=
  if i.resultsFound < 3 then fallbackSerpData else i.scraperData

/-- Total value of `wordRatioVal`. -/
def wordRatioQ (userWords avgWords : Nat) : ℚ :=
  if 0 < avgWords then (userWords : ℚ) / (avgWords : ℚ) else 0

/-- serp_analyzer.py lines 11-158 (`SERPAnalyzer.analyze`): early return on
an empty keyword, otherwise the keyword-present branch. -/
def analyze (i : SerpInput) : Option SerpReport :=
  if i.targetKeyword = "" then pure emptyKeywordReport
  else do
    let r ← wordRatioVal i.userWordCount (usedSerpData i).avgWordCount
    pure (mainReport i (usedSerpData i) r)

/-- The report `analyze` always succeeds with. -/
def analyzeVal (i : SerpInput) : SerpReport :=
  if i.targetKeyword = "" then emptyKeywordReport
  else mainReport i (usedSerpData i)
    (wordRatioQ i.userWordCount (usedSerpData i).avgWordCount)

end SERPAnalyzer

/- ===================== AEOAnalyzer ===================== -/

/-- Input features of `AEOAnalyzer.analyze(text, headers)`
(src/api/analyzers/aeo_analyzer.py): the regex extraction results of
`_detect_citations`, `_analyze_structured_content`, `_analyze_ai_patterns`
and `_analyze_answer_style`. -/
structure AEOInput where
  citationCount : Nat
  hasFaqPattern : Bool
  hasLists : Bool
  hasHowToPattern : Bool
  definitionCount : Nat
  hasSummary : Bool
  directAnswers : Nat
deriving DecidableEq

namespace AEOAnalyzer

/-- aeo_analyzer.py lines 20-29: citation deductions. -/
def citationDeduction (count : Nat) : Nat :=
  if count = 0 then 25 else if count < 3 then 15 else 0

/-- aeo_analyzer.py lines 35-48: structured-content deductions. -/
def structuredDeduction (faq lists howTo : Bool) : Nat :=
  (if faq then 0 else 15) + (if lists then 0 else 10) + (if howTo then 0 else 10)

/-- aeo_analyzer.py lines 54-62: AI-friendly pattern deductions. -/
def aiPatternDeduction (definitionCount : Nat) (hasSummary : Bool) : Nat :=
  (if definitionCount < 2 then 10 else 0) + (if hasSummary then 0 else 10)

/-- aeo_analyzer.py lines 68-71: direct-answer deduction. -/
def answerStyleDeduction (directAnswers : Nat) : Nat :=
  if directAnswers < 3 then 10 else 0

/-- The report `analyze` always succeeds with. -/
def analyzeVal (i : AEOInput) : Report :=
    { score := max 0 (100 - citationDeduction i.citationCount
        - structuredDeduction i.hasFaqPattern i.hasLists i.hasHowToPattern
        - aiPatternDeduction i.definitionCount i.hasSummary
        - answerStyleDeduction i.directAnswers)
      issues :=
        (if i.citationCount = 0 then ["No citations or sources found"]
         else if i.citationCount < 3 then
          ["Only " ++ toString i.citationCount ++ " citation(s) found"]
         else []) ++
        (if i.hasFaqPattern then [] else ["No FAQ section detected"]) ++
        (if i.hasLists then [] else ["No bulleted or numbered lists found"]) ++
        (if i.hasHowToPattern then [] else ["No step-by-step instructions detected"]) ++
        (if i.definitionCount < 2 then ["Few clear definitions found"] else []) ++
        (if i.hasSummary then [] else ["No summary or conclusion section"]) ++
        (if i.directAnswers < 3 then ["Content lacks direct, quotable answers"] else [])
      recommendations :=
        ((if i.citationCount = 0 then ["Add 3-5 authoritative sources with links"]
          else if i.citationCount < 3 then
            ["Add more authoritative sources (aim for 3-5)"]
          else []) ++
         (if i.hasFaqPattern then []
          else ["Add FAQ section with schema markup (great for featured snippets)"]) ++
         (if i.hasLists then []
          else ["Use lists for better scannability and AI parsing"]) ++
         (if i.hasHowToPattern then []
          else ["Add clear step-by-step format (enhances AI understanding)"]) ++
         (if i.definitionCount < 2 then
           ["Define key terms clearly (helps AI understand context)"] else []) ++
         (if i.hasSummary then []
          else ["Add a clear summary or key takeaways section"]) ++
         (if i.directAnswers < 3 then
           ["Include direct answers to common questions"] else [])).take 3 }

/-- aeo_analyzer.py lines 6-80 (`AEOAnalyzer.analyze`): no division occurs
anywhere in the analyzer, so the Option is always `pure`. -/
def analyze (i : AEOInput) : Option Report := pure (analyzeVal i)

end AEOAnalyzer

/- ===================== HumanizationAnalyzer ===================== -/

/-- Input features of `HumanizationAnalyzer.analyze(text)`
(src/backend/analyzers/humanization_analyzer.py).  `sentences` is the
output of `_split_sentences` with every qualifying sentence given as its
`split()` word list; `stdDevRounded` abstracts the `math.sqrt`-based
`round(std_dev, 1)` of `_analyze_sentence_lengths`; the Bool/Nat fields are
the regex and substring extractions of `_detect_ai_patterns`,
`_analyze_transitions` and `_analyze_natural_flow`. -/
structure HumanInput where
  sentences : List (List String)
  stdDevRounded : ℚ
  hasDelve : Bool
  formulaicCount : Nat
  adverbCount : Nat
  wordCount : Nat
  hasFragments : Bool
  hasInformal : Bool
  transitionCount : Nat
  hasContractions : Bool
  hasQuestions : Bool
deriving DecidableEq

namespace HumanizationAnalyzer

/-- humanization_analyzer.py lines 113-118: lowercased first word of every
non-empty sentence. -/
def starterWords (sentences : List (List String)) : List String :=
  sentences.filterMap (fun ws =>
    if 0 < ws.length then some (ws.headD "").toLower else none)

/-- humanization_analyzer.py lines 121-126: the count of the single most
common starter (`most_common(1)`). -/
def topStarterCount (starters : List String) : Nat :=
  (starters.map (fun s => starters.count s)).foldr max 0

/-- humanization_analyzer.py lines 122-130: the most common starter word
(ties resolved by first occurrence, as `collections.Counter` does). -/
def mostCommonStarter (starters : List String) : String :=
  match starters.find? (fun s => starters.count s = topStarterCount starters) with
  | some s => s
  | none => "same way"

/-- humanization_analyzer.py line 127:
`int((top_repetitions / total) * 100) if total > 0 else 0`. -/
def repetitionRateVal (sentences : List (List String)) : Option Nat :=
  let starters := starterWords sentences
  if 0 < starters.length then
    (pydiv (topStarterCount starters : ℚ) (starters.length : ℚ)).map
      (fun q => (⌊q * 100⌋).toNat)
  else pure 0

/-- humanization_analyzer.py line 144:
`avg_length = sum(lengths) / len(lengths) if lengths else 0` (used only in
issue strings; the standard deviation itself goes through `math.sqrt` and is
abstracted as the input field `stdDevRounded`). -/
def avgLenVal (sentences : List (List String)) : Option ℚ :=
  let lengths : List ℕ := sentences.map (fun s => s.length)
  if lengths ≠ [] then pydiv (lengths.sum : ℚ) (lengths.length : ℚ) else pure 0

/-- humanization_analyzer.py lines 189-192:
`adverb_rate = (adverb_count / word_count) * 100 if word_count > 0 else 0`. -/
def adverbRateVal (adverbCount wordCount : Nat) : Option ℚ :=
  if 0 < wordCount then
    (pydiv (adverbCount : ℚ) (wordCount : ℚ)).map (fun q => q * 100)
  else pure 0

/-- humanization_analyzer.py lines 207-215: the `starter_lowercase_length//5`
signatures of the first 10 sentences. -/
def sentenceSignatures (sentences : List (List String)) : List String :=
  (sentences.take 10).filterMap (fun ws =>
    if 0 < ws.length then
      some ((ws.headD "").toLower ++ "_" ++ toString (ws.length / 5))
    else none)

/-- humanization_analyzer.py lines 161-224 (`_detect_ai_patterns`), raw sum
of the five pattern contributions before the `min(_, 100)` cap. -/
def rawAiScore (i : HumanInput) (adverbRate : ℚ) : Nat :=
  (if i.hasDelve then 15 else 0) +
  (if 2 < i.formulaicCount then 20 else 0) +
  (if 2 < adverbRate then 15 else 0) +
  (if !i.hasFragments && !i.hasInformal && 10 < i.sentences.length then 10 else 0) +
  (if ((sentenceSignatures i.sentences).dedup.length : ℚ) <
      ((sentenceSignatures i.sentences).length : ℚ) * (6/10) then 15 else 0)

/-- humanization_analyzer.py lines 161-224: detected-pattern labels. -/
def detectedAiLabels (i : HumanInput) (adverbRate : ℚ) : List String :=
  (if i.hasDelve then ["uses \x27delve\x27 (rare in human writing)"] else []) ++
  (if 2 < i.formulaicCount then [toString i.formulaicCount ++ " formulaic phrases"] else []) ++
  (if 2 < adverbRate then ["excessive adverbs"] else []) ++
  (if !i.hasFragments && !i.hasInformal && 10 < i.sentences.length then
    ["overly perfect grammar"] else []) ++
  (if ((sentenceSignatures i.sentences).dedup.length : ℚ) <
      ((sentenceSignatures i.sentences).length : ℚ) * (6/10) then
    ["repetitive sentence structure"] else [])

/-- humanization_analyzer.py lines 161-224 (`_detect_ai_patterns`): the
`ai_score` capped at 100 with its detected-pattern list. -/
def detectAiPatterns (i : HumanInput) : Option (Nat × List String) := do
  let rate ← adverbRateVal i.adverbCount i.wordCount
  let detected := detectedAiLabels i rate
  pure (min (rawAiScore i rate) 100,
    if detected = [] then ["none detected"] else detected)

/-- humanization_analyzer.py lines 236-239 (`_analyze_transitions`):
`int((transition_count / sentence_count) * 100) if sentence_count > 0
else 0`, where `sentence_count` re-runs `_split_sentences` and therefore
equals the length of the input sentence list. -/
def overuseRateVal (transitionCount sentenceCount : Nat) : Option Nat :=
  if 0 < sentenceCount then
    (pydiv (transitionCount : ℚ) (sentenceCount : ℚ)).map (fun q => (⌊q * 100⌋).toNat)
  else pure 0

/-- humanization_analyzer.py lines 32-40: sentence-starter deductions. -/
def starterDeduction (rate : Nat) : Nat :=
  if 40 < rate then 20 else if 25 < rate then 10 else 0

/-- humanization_analyzer.py lines 46-52: sentence-length deductions on the
rounded standard deviation. -/
def lengthDeduction (stdDev : ℚ) : Nat :=
  if stdDev < 3 then 20 else if stdDev < 5 then 10 else 0

/-- humanization_analyzer.py lines 58-65: AI-pattern deductions. -/
def aiDeduction (aiScore : Nat) : Nat :=
  if 60 < aiScore then 25 else if 40 < aiScore then 15 else 0

/-- humanization_analyzer.py lines 71-74: transition-overuse deduction. -/
def transitionDeduction (overuseRate : Nat) : Nat :=
  if 30 < overuseRate then 10 else 0

/-- humanization_analyzer.py lines 80-88: natural-flow deductions. -/
def flowDeduction (hasContractions hasQuestions : Bool) : Nat :=
  (if hasContractions then 0 else 10) + (if hasQuestions then 0 else 5)

/-- humanization_analyzer.py lines 20-26: the fixed early return when fewer
than 3 qualifying sentences were found. -/
def shortReport : Report :=
  { score := 50
    issues := ["Content too short for humanization analysis"]
    recommendations := ["Add more content"] }

/-- Report assembly of `HumanizationAnalyzer.analyze` once the four derived
rates have been resolved (humanization_analyzer.py lines 28-101): deduction
scoring with the floor at 0 and recommendations truncated to 3.  The
per-sentence heatmap (diagnostic `details` output) is not modelled. -/
def analyzeBody (i : HumanInput) (repRate : Nat) (avgLen : ℚ)
    (ai : Nat × List String) (overuse : Nat) : Report :=
    let score : Int := 100 - starterDeduction repRate
        - lengthDeduction i.stdDevRounded - aiDeduction ai.1
        - transitionDeduction overuse
        - flowDeduction i.hasContractions i.hasQuestions
    { score := max 0 score
      issues :=
          (if 40 < repRate then
            [toString repRate ++ "% sentences start same way (\""
              ++ mostCommonStarter (starterWords i.sentences) ++ "\"...)"]
           else if 25 < repRate then
            [toString repRate ++ "% sentences have repetitive starts"]
           else []) ++
          (if i.stdDevRounded < 3 then
            ["Low sentence length variation (avg " ++ fmt1 avgLen
              ++ " words, std dev " ++ fmt1 i.stdDevRounded ++ ")"]
           else if i.stdDevRounded < 5 then
            ["Moderate sentence length variation (avg " ++ fmt1 avgLen
              ++ " words, std dev " ++ fmt1 i.stdDevRounded ++ ")"]
           else []) ++
          (if 60 < ai.1 then
            ["High AI pattern score: " ++ toString ai.1 ++ "%",
             "Detected: " ++ String.intercalate ", " ai.2]
           else if 40 < ai.1 then
            ["Moderate AI patterns detected: " ++ toString ai.1 ++ "%"]
           else []) ++
          (if 30 < overuse then ["Overuse of transition words (very AI-like)"] else []) ++
          (if i.hasContractions then [] else ["No contractions used (sounds stiff)"]) ++
          (if i.hasQuestions then [] else ["No questions to engage reader"])
      recommendations :=
          ((if 40 < repRate then ["Vary sentence starters and lengths"]
            else if 25 < repRate then ["Mix up sentence beginnings more"]
            else []) ++
           (if i.stdDevRounded < 3 then
             ["Vary sentence lengths - mix short punchy sentences with longer detailed ones"]
            else []) ++
           (if 60 < ai.1 then
             ["Rewrite to sound more conversational and less formulaic"]
            else []) ++
           (if 30 < overuse then
             ["Reduce formulaic transitions like \x27moreover\x27, \x27furthermore\x27, \x27additionally\x27"]
            else []) ++
           (if i.hasContractions then []
            else ["Use contractions (don\x27t, can\x27t, it\x27s) for natural tone"]) ++
           (if i.hasQuestions then []
            else ["Add rhetorical questions to engage readers"])).take 3 }

/-- Total value of `repetitionRateVal`. -/
def repetitionRateNat (sentences : List (List String)) : Nat :=
  let starters := starterWords sentences
  if 0 < starters.length then
    (⌊(topStarterCount starters : ℚ) / (starters.length : ℚ) * 100⌋).toNat
  else 0

/-- Total value of `avgLenVal`. -/
def avgLenQ (sentences : List (List String)) : ℚ :=
  let lengths : List ℕ := sentences.map (fun s => s.length)
  if lengths ≠ [] then (lengths.sum : ℚ) / (lengths.length : ℚ) else 0

/-- Total value of `adverbRateVal`. -/
def adverbRateQ (adverbCount wordCount : Nat) : ℚ :=
  if 0 < wordCount then (adverbCount : ℚ) / (wordCount : ℚ) * 100 else 0

/-- Total value of `detectAiPatterns`. -/
def detectAiPatternsVal (i : HumanInput) : Nat × List String :=
  let rate := adverbRateQ i.adverbCount i.wordCount
  let detected := detectedAiLabels i rate
  (min (rawAiScore i rate) 100,
    if detected = [] then ["none detected"] else detected)

/-- Total value of `overuseRateVal`. -/
def overuseRateNat (transitionCount sentenceCount : Nat) : Nat :=
  if 0 < sentenceCount then (⌊(transitionCount : ℚ) / (sentenceCount : ℚ) * 100⌋).toNat
  else 0

/-- humanization_analyzer.py lines 8-101 (`HumanizationAnalyzer.analyze`):
fixed score 50 when fewer than 3 qualifying sentences, otherwise the
deduction-scoring body. -/
def analyze (i : HumanInput) : Option Report :=
  if i.sentences.length < 3 then pure shortReport
  else do
    let repRate ← repetitionRateVal i.sentences
    let avgLen ← avgLenVal i.sentences
    let ai ← detectAiPatterns i
    let overuse ← overuseRateVal i.transitionCount i.sentences.length
    pure (analyzeBody i repRate avgLen ai overuse)

/-- The report `analyze` always succeeds with. -/
def analyzeVal (i : HumanInput) : Report :=
  if i.sentences.length < 3 then shortReport
  else analyzeBody i (repetitionRateNat i.sentences) (avgLenQ i.sentences)
    (detectAiPatternsVal i) (overuseRateNat i.transitionCount i.sentences.length)

end HumanizationAnalyzer

/- ===================== DifferentiationAnalyzer ===================== -/

/-- Input features of `DifferentiationAnalyzer.analyze(text, serp_data)`
(src/backend/analyzers/differentiation_analyzer.py).  `serpDataPresent` is
the Python test `serp_data and 'serp_data' in serp_data`;
`hasUniqueExamples` / `hasUniqueAngle` are the substring indicator checks of
`_analyze_basic_uniqueness`; `genericCount` and `sentenceSplitCount` come
from `_simulate_content_overlap` (`len(re.split(r'[.!?]+', text))`), and the
remaining fields are the extractions of `_detect_unique_elements`,
`_analyze_structure_difference` and `_analyze_voice_differentiation`. -/
structure DiffInput where
  serpDataPresent : Bool
  hasUniqueExamples : Bool
  hasUniqueAngle : Bool
  genericCount : Nat
  sentenceSplitCount : Nat
  wordCount : Nat
  personalExamples : Nat
  originalData : Nat
  hasGenericStart : Bool
  hasUniqueFormat : Bool
  casualCount : Nat
  technicalCount : Nat
  playfulCount : Nat
  storyCount : Nat
deriving DecidableEq

namespace DifferentiationAnalyzer

/-- differentiation_analyzer.py lines 124-152 (`_simulate_content_overlap`):
`min(int((generic_count / sentence_count) * 100), 90) if sentence_count > 0
else 70`, plus 10 when the content has fewer than 500 words, capped at 95. -/
def overlapVal (genericCount sentenceSplitCount wordCount : Nat) : Option Int := do
  let base ←
    if 0 < sentenceSplitCount then
      (pydiv (genericCount : ℚ) (sentenceSplitCount : ℚ)).map
        (fun q => min (⌊q * 100⌋) 90)
    else pure 70
  let withLen := if wordCount < 500 then base + 10 else base
  pure (min withLen 95)

/-- differentiation_analyzer.py lines 48-56: overlap deductions. -/
def overlapDeduction (overlap : Int) : Nat :=
  if 70 < overlap then 30 else if 50 < overlap then 20 else 0

/-- differentiation_analyzer.py lines 202: `has_unique_structure =
not has_generic_start or has_unique_format`. -/
def hasUniqueStructure (hasGenericStart hasUniqueFormat : Bool) : Bool :=
  !hasGenericStart || hasUniqueFormat

/-- differentiation_analyzer.py lines 226-228: `has_distinct_voice =
total_indicators > 5`. -/
def hasDistinctVoice (casual technical playful story : Nat) : Bool :=
  5 < casual + technical + playful + story

/-- differentiation_analyzer.py lines 16-36: the basic branch without SERP
data.  Note the score is returned directly, with no `max(0, ...)` floor and
no recommendation truncation. -/
def basicReport (i : DiffInput) : Report :=
  { score := 100 - (if i.hasUniqueExamples then 0 else 20)
      - (if i.hasUniqueAngle then 0 else 15)
    issues :=
      (if i.hasUniqueExamples then [] else ["No unique examples or data points detected"]) ++
      (if i.hasUniqueAngle then [] else ["Content follows generic structure"])
    recommendations :=
      (if i.hasUniqueExamples then [] else ["Add original data points or product comparisons"]) ++
      (if i.hasUniqueAngle then []
       else ["Use unique angle (e.g., \x27student perspective\x27 vs generic advice)"]) }

/-- Report assembly of the SERP-data branch of
`DifferentiationAnalyzer.analyze` once the simulated overlap has been
resolved (differentiation_analyzer.py lines 44-99): deductions, floor at 0
and recommendations truncated to 3. -/
def mainReport (i : DiffInput) (overlap : Int) : Report :=
    let score : Int := 100 - overlapDeduction overlap
        - (if i.personalExamples = 0 then 15 else 0)
        - (if i.originalData = 0 then 10 else 0)
        - (if hasUniqueStructure i.hasGenericStart i.hasUniqueFormat then 0 else 15)
        - (if hasDistinctVoice i.casualCount i.technicalCount i.playfulCount i.storyCount
            then 0 else 10)
    { score := max 0 score
      issues :=
        (if 70 < overlap then
          [toString overlap ++ "% content overlap with top 3 SERP results",
           "No unique examples or data"]
         else if 50 < overlap then
          [toString overlap ++ "% content overlap with competitors"]
         else []) ++
        (if i.personalExamples = 0 then ["No unique examples or data"] else []) ++
        (if i.originalData = 0 && 0 < i.personalExamples then
          ["No original data or research"] else []) ++
        (if hasUniqueStructure i.hasGenericStart i.hasUniqueFormat then []
         else ["Same structure as competitors (all follow identical outline)"]) ++
        (if hasDistinctVoice i.casualCount i.technicalCount i.playfulCount i.storyCount
         then [] else ["Generic voice and tone"])
      recommendations :=
        ((if 70 < overlap then ["Add original data points or product comparisons"]
          else if 50 < overlap then
            ["Inject more unique perspective or original research"]
          else []) ++
         (if i.personalExamples = 0 then
           ["Add original data points or product comparisons"] else []) ++
         (if i.originalData = 0 && 0 < i.personalExamples then
           ["Include original data, surveys, or experiments"] else []) ++
         (if hasUniqueStructure i.hasGenericStart i.hasUniqueFormat then []
          else ["Use unique angle (e.g., \x27student perspective\x27 vs generic advice)"]) ++
         (if hasDistinctVoice i.casualCount i.technicalCount i.playfulCount i.storyCount
          then []
          else ["Develop stronger brand voice (casual, technical, playful, etc.)"])).take 3 }

/-- Total value of `overlapVal`. -/
def overlapInt (genericCount sentenceSplitCount wordCount : Nat) : Int :=
  let base : Int :=
    if 0 < sentenceSplitCount then
      min (⌊(genericCount : ℚ) / (sentenceSplitCount : ℚ) * 100⌋) 90
    else 70
  min (if wordCount < 500 then base + 10 else base) 95

/-- differentiation_analyzer.py lines 6-99
(`DifferentiationAnalyzer.analyze`): basic branch when no SERP data was
handed over, otherwise the simulated-overlap branch. -/
def analyze (i : DiffInput) : Option Report :=
  if !i.serpDataPresent then pure (basicReport i)
  else do
    let overlap ← overlapVal i.genericCount i.sentenceSplitCount i.wordCount
    pure (mainReport i overlap)

/-- The report `analyze` always succeeds with. -/
def analyzeVal (i : DiffInput) : Report :=
  if !i.serpDataPresent then basicReport i
  else mainReport i (overlapInt i.genericCount i.sentenceSplitCount i.wordCount)

end DifferentiationAnalyzer

/- ===================== Aggregator ===================== -/

namespace Aggregate

/-- backend/app.py lines 148-155 and 170 (identical in api/index.py):
`overall_score = sum(scores) / len(scores)` over the five analyzer scores,
then `round(overall_score, 1)` in the response. -/
def overallScore (s1 s2 s3 s4 s5 : Int) : ℚ :=
  pyRound1 (((s1 + s2 + s3 + s4 + s5 : Int) : ℚ) / 5)

/-- Python `int(n * 0.4)` for a natural rank: exact truncation of the IEEE
double product, which coincides with `2 * n / 5` for every `n < 100000`
(checked exhaustively). -/
def pyIntMul04 (n : Nat) : Nat := 2 * n / 5

/-- Python `int(n * 0.6)`, coinciding with `3 * n / 5` on the same range. -/
def pyIntMul06 (n : Nat) : Nat := 3 * n / 5

/-- backend/app.py line 158: `serp_results['details'].get('ranking_prediction',
{}).get('current_position', 20)` — the predicted position, defaulting to 20
when the SERP report carried no prediction (empty keyword). -/
def currentRankOf (r : SerpReport) : Nat :=
  (r.rankingPrediction.map (fun p => p.position)).getD 20

/-- backend/app.py line 159: `improved_rank = max(3, int(current_rank * 0.4))
if overall_score < 70 else max(3, int(current_rank * 0.6))`. -/
def improvedRank (currentRank : Nat) (overall : ℚ) : Nat :=
  if overall < 70 then max 3 (pyIntMul04 currentRank)
  else max 3 (pyIntMul06 currentRank)

/-- Claim-side definition written from the claim's words: the improved rank
as `max(3, round(current × 0.4))` when the overall score is below 70 and
`max(3, round(current × 0.6))` otherwise. -/
def claimImprovedRank (currentRank : Nat) (overall : ℚ) : Nat :=
  if overall < 70 then max 3 (round ((currentRank : ℚ) * (4/10))).toNat
  else max 3 (round ((currentRank : ℚ) * (6/10))).toNat

/-- Amended claim-side definition: the improved rank with the float-to-int
conversion read as truncation (floor, on these non-negative products)
instead of rounding. -/
def amendedImprovedRank (currentRank : Nat) (overall : ℚ) : Nat :=
  if overall < 70 then max 3 (⌊(currentRank : ℚ) * (4/10)⌋).toNat
  else max 3 (⌊(currentRank : ℚ) * (6/10)⌋).toNat

/-- backend/app.py lines 294-308 (`_get_top_recommendations`, identical in
api/index.py): first 2 recommendations of each report in order, then a
keep-first deduplication pass, then truncation to 5. -/
def getTopRecommendations (allResults : List (List String)) : List String :=
  let allRecs := allResults.foldl (fun acc recs => acc ++ recs.take 2) []
  (allRecs.foldl (fun uniq r => if r ∈ uniq then uniq else uniq ++ [r]) []).take 5

/-- Spec-side keep-first deduplication, written from the claim's words:
remove exact-string duplicates while keeping first-occurrence order. -/
def dedupKeepFirst : List String → List String
  | [] => []
  | x :: xs => x :: dedupKeepFirst (xs.filter (fun y => y ≠ x))
termination_by l => l.length
decreasing_by
  simp only [List.length_cons]
  exact Nat.lt_succ_of_le (List.length_filter_le _ _)

end Aggregate

/- ===================== Helper lemmas ===================== -/

theorem pydiv_natCast_pos (a : ℚ) {n : ℕ} (h : 0 < n) :
    pydiv a (n : ℚ) = some (a / n) := by
  have hn : (n : ℚ) ≠ 0 := Nat.cast_ne_zero.mpr (Nat.pos_iff_ne_zero.mp h)
  simp [pydiv, hn]

theorem analyzeKeywordDensity_eq (c k t : ℕ) :
    SEOAnalyzer.analyzeKeywordDensity c k t = some (SEOAnalyzer.densityVal c k t) := by
  by_cases h : 0 < t
  · simp [SEOAnalyzer.analyzeKeywordDensity, SEOAnalyzer.densityVal, h,
      pydiv_natCast_pos _ h]
  · simp [SEOAnalyzer.analyzeKeywordDensity, SEOAnalyzer.densityVal, h]

theorem keywordBlock_eq (i : SEOInput) :
    SEOAnalyzer.keywordBlock i = some (SEOAnalyzer.keywordBlockVal i) := by
  by_cases h : i.targetKeyword = ""
  · simp [SEOAnalyzer.keywordBlock, SEOAnalyzer.keywordBlockVal, h]
  · simp [SEOAnalyzer.keywordBlock, SEOAnalyzer.keywordBlockVal, h,
      analyzeKeywordDensity_eq]

theorem seo_analyze_eq (i : SEOInput) :
    SEOAnalyzer.analyze i = some (SEOAnalyzer.analyzeVal i) := by
  simp [SEOAnalyzer.analyze, SEOAnalyzer.analyzeVal, keywordBlock_eq]

theorem wordRatioVal_eq (u a : ℕ) :
    SERPAnalyzer.wordRatioVal u a = some (SERPAnalyzer.wordRatioQ u a) := by
  by_cases h : 0 < a
  · simp [SERPAnalyzer.wordRatioVal, SERPAnalyzer.wordRatioQ, h, pydiv_natCast_pos _ h]
  · simp [SERPAnalyzer.wordRatioVal, SERPAnalyzer.wordRatioQ, h]

theorem serp_analyze_eq (i : SerpInput) :
    SERPAnalyzer.analyze i = some (SERPAnalyzer.analyzeVal i) := by
  by_cases h : i.targetKeyword = ""
  · simp [SERPAnalyzer.analyze, SERPAnalyzer.analyzeVal, h]
  · simp [SERPAnalyzer.analyze, SERPAnalyzer.analyzeVal, h, wordRatioVal_eq]

theorem aeo_analyze_eq (i : AEOInput) :
    AEOAnalyzer.analyze i = some (AEOAnalyzer.analyzeVal i) := rfl

theorem repetitionRateVal_eq (s : List (List String)) :
    HumanizationAnalyzer.repetitionRateVal s
      = some (HumanizationAnalyzer.repetitionRateNat s) := by
  by_cases h : 0 < (HumanizationAnalyzer.starterWords s).length
  · simp [HumanizationAnalyzer.repetitionRateVal, HumanizationAnalyzer.repetitionRateNat,
      h, pydiv_natCast_pos _ h]
  · simp [HumanizationAnalyzer.repetitionRateVal, HumanizationAnalyzer.repetitionRateNat, h]

theorem avgLenVal_eq (s : List (List String)) :
    HumanizationAnalyzer.avgLenVal s = some (HumanizationAnalyzer.avgLenQ s) := by
  by_cases h : (s.map (fun ws => ws.length)) ≠ []
  · have hl : 0 < (s.map (fun ws => ws.length)).length := List.length_pos.mpr h
    simp only [HumanizationAnalyzer.avgLenVal, HumanizationAnalyzer.avgLenQ, if_pos h,
      pydiv_natCast_pos _ hl]
  · simp [HumanizationAnalyzer.avgLenVal, HumanizationAnalyzer.avgLenQ, h]

theorem adverbRateVal_eq (c w : ℕ) :
    HumanizationAnalyzer.adverbRateVal c w = some (HumanizationAnalyzer.adverbRateQ c w) := by
  by_cases h : 0 < w
  · simp [HumanizationAnalyzer.adverbRateVal, HumanizationAnalyzer.adverbRateQ, h,
      pydiv_natCast_pos _ h]
  · simp [HumanizationAnalyzer.adverbRateVal, HumanizationAnalyzer.adverbRateQ, h]

theorem detectAiPatterns_eq (i : HumanInput) :
    HumanizationAnalyzer.detectAiPatterns i
      = some (HumanizationAnalyzer.detectAiPatternsVal i) := by
  simp [HumanizationAnalyzer.detectAiPatterns, HumanizationAnalyzer.detectAiPatternsVal,
    adverbRateVal_eq]

theorem overuseRateVal_eq (t s : ℕ) :
    HumanizationAnalyzer.overuseRateVal t s
      = some (HumanizationAnalyzer.overuseRateNat t s) := by
  by_cases h : 0 < s
  · simp [HumanizationAnalyzer.overuseRateVal, HumanizationAnalyzer.overuseRateNat, h,
      pydiv_natCast_pos _ h]
  · simp [HumanizationAnalyzer.overuseRateVal, HumanizationAnalyzer.overuseRateNat, h]

theorem human_analyze_eq (i : HumanInput) :
    HumanizationAnalyzer.analyze i = some (HumanizationAnalyzer.analyzeVal i) := by
  by_cases h : i.sentences.length < 3
  · simp [HumanizationAnalyzer.analyze, HumanizationAnalyzer.analyzeVal, h]
  · simp [HumanizationAnalyzer.analyze, HumanizationAnalyzer.analyzeVal, h,
      repetitionRateVal_eq, avgLenVal_eq, detectAiPatterns_eq, overuseRateVal_eq]

theorem overlapVal_eq (g s w : ℕ) :
    DifferentiationAnalyzer.overlapVal g s w
      = some (DifferentiationAnalyzer.overlapInt g s w) := by
  by_cases h : 0 < s
  · simp [DifferentiationAnalyzer.overlapVal, DifferentiationAnalyzer.overlapInt, h,
      pydiv_natCast_pos _ h]
  · simp [DifferentiationAnalyzer.overlapVal, DifferentiationAnalyzer.overlapInt, h]

theorem diff_analyze_eq (i : DiffInput) :
    DifferentiationAnalyzer.analyze i = some (DifferentiationAnalyzer.analyzeVal i) := by
  by_cases h : i.serpDataPresent
  · simp [DifferentiationAnalyzer.analyze, DifferentiationAnalyzer.analyzeVal, h,
      overlapVal_eq]
  · simp [DifferentiationAnalyzer.analyze, DifferentiationAnalyzer.analyzeVal, h]

theorem seo_score_bounds (i : SEOInput) :
    0 ≤ (SEOAnalyzer.analyzeVal i).score ∧ (SEOAnalyzer.analyzeVal i).score ≤ 100 := by
  simp only [SEOAnalyzer.analyzeVal, SEOAnalyzer.analyzeBody]
  omega

theorem serp_score_bounds (i : SerpInput) :
    0 ≤ (SERPAnalyzer.analyzeVal i).score ∧ (SERPAnalyzer.analyzeVal i).score ≤ 100 := by
  by_cases h : i.targetKeyword = ""
  · simp [SERPAnalyzer.analyzeVal, h, SERPAnalyzer.emptyKeywordReport]
  · simp only [SERPAnalyzer.analyzeVal, if_neg h, SERPAnalyzer.mainReport]
    omega

theorem aeo_score_bounds (i : AEOInput) :
    0 ≤ (AEOAnalyzer.analyzeVal i).score ∧ (AEOAnalyzer.analyzeVal i).score ≤ 100 := by
  simp only [AEOAnalyzer.analyzeVal]
  omega

theorem human_score_bounds (i : HumanInput) :
    0 ≤ (HumanizationAnalyzer.analyzeVal i).score
      ∧ (HumanizationAnalyzer.analyzeVal i).score ≤ 100 := by
  by_cases h : i.sentences.length < 3
  · simp [HumanizationAnalyzer.analyzeVal, h, HumanizationAnalyzer.shortReport]
  · simp only [HumanizationAnalyzer.analyzeVal, if_neg h, HumanizationAnalyzer.analyzeBody]
    omega

theorem diff_score_bounds (i : DiffInput) :
    0 ≤ (DifferentiationAnalyzer.analyzeVal i).score
      ∧ (DifferentiationAnalyzer.analyzeVal i).score ≤ 100 := by
  by_cases h : i.serpDataPresent
  · simp only [DifferentiationAnalyzer.analyzeVal, h, Bool.not_true, Bool.false_eq_true,
      if_false, DifferentiationAnalyzer.mainReport]
    omega
  · simp only [DifferentiationAnalyzer.analyzeVal, h, Bool.not_false, if_true,
      DifferentiationAnalyzer.basicReport]
    constructor <;> split_ifs <;> omega

/- ===================== Claim theorems ===================== -/

/-- Claim C1: for every input, each of the five analyzers returns a report
whose score is an integer in [0, 100] — in particular it is never negative,
including in the basic (no-SERP-data) branch of `DifferentiationAnalyzer`,
which returns without an explicit `max(0, ...)` floor (its two possible
deductions total at most 35).  Scores are integers by the `Int` type of
`Report.score`. -/
theorem analyzer_scores_within_bounds (a : SEOInput) (b : SerpInput) (c : AEOInput)
    (d : HumanInput) (e : DiffInput) :
    (∃ r, SEOAnalyzer.analyze a = some r ∧ 0 ≤ r.score ∧ r.score ≤ 100) ∧
    (∃ r, SERPAnalyzer.analyze b = some r ∧ 0 ≤ r.score ∧ r.score ≤ 100) ∧
    (∃ r, AEOAnalyzer.analyze c = some r ∧ 0 ≤ r.score ∧ r.score ≤ 100) ∧
    (∃ r, HumanizationAnalyzer.analyze d = some r ∧ 0 ≤ r.score ∧ r.score ≤ 100) ∧
    (∃ r, DifferentiationAnalyzer.analyze e = some r ∧ 0 ≤ r.score ∧ r.score ≤ 100) :=
  ⟨⟨_, seo_analyze_eq a, (seo_score_bounds a).1, (seo_score_bounds a).2⟩,
   ⟨_, serp_analyze_eq b, (serp_score_bounds b).1, (serp_score_bounds b).2⟩,
   ⟨_, aeo_analyze_eq c, (aeo_score_bounds c).1, (aeo_score_bounds c).2⟩,
   ⟨_, human_analyze_eq d, (human_score_bounds d).1, (human_score_bounds d).2⟩,
   ⟨_, diff_analyze_eq e, (diff_score_bounds e).1, (diff_score_bounds e).2⟩⟩

/-- Claim C8: no analyzer fails on malformed-but-present input.  Every
division in the embedding is the fallible `pydiv`, and the analyzers are
`Option`-valued, so an unguarded division by zero (zero words, zero
sentences, zero competitor word count) would surface as `none`; the
theorem shows every `analyze` call succeeds on every input, including all
degenerate ones. -/
theorem analyzers_never_fail (a : SEOInput) (b : SerpInput) (c : AEOInput)
    (d : HumanInput) (e : DiffInput) :
    (SEOAnalyzer.analyze a).isSome = true ∧
    (SERPAnalyzer.analyze b).isSome = true ∧
    (AEOAnalyzer.analyze c).isSome = true ∧
    (HumanizationAnalyzer.analyze d).isSome = true ∧
    (DifferentiationAnalyzer.analyze e).isSome = true := by
  refine ⟨?_, ?_, ?_, ?_, ?_⟩ <;>
    simp [seo_analyze_eq, serp_analyze_eq, aeo_analyze_eq, human_analyze_eq,
      diff_analyze_eq]

/-- Claim C9: every analyzer is deterministic — two calls with identical
inputs (for `SERPAnalyzer`, identical scraper collaborator outputs, which
are part of `SerpInput`) produce identical reports.  The source contains no
random or time-dependent calls, so each analyzer embeds as a pure function
of its input features and determinism is congruence of application. -/
theorem analyzers_deterministic (a a' : SEOInput) (b b' : SerpInput)
    (c c' : AEOInput) (d d' : HumanInput) (e e' : DiffInput) :
    (a = a' → SEOAnalyzer.analyze a = SEOAnalyzer.analyze a') ∧
    (b = b' → SERPAnalyzer.analyze b = SERPAnalyzer.analyze b') ∧
    (c = c' → AEOAnalyzer.analyze c = AEOAnalyzer.analyze c') ∧
    (d = d' → HumanizationAnalyzer.analyze d = HumanizationAnalyzer.analyze d') ∧
    (e = e' → DifferentiationAnalyzer.analyze e = DifferentiationAnalyzer.analyze e') :=
  ⟨fun h => h ▸ rfl, fun h => h ▸ rfl, fun h => h ▸ rfl, fun h => h ▸ rfl,
   fun h => h ▸ rfl⟩

/-- Witness for C9 at concrete inputs. -/
theorem analyzers_deterministic_witness :
    SEOAnalyzer.analyze ⟨250, 50, [], "", "", 0⟩
      = SEOAnalyzer.analyze ⟨250, 50, [], "", "", 0⟩ ∧
    SERPAnalyzer.analyze ⟨"laptop", 0, SERPAnalyzer.fallbackSerpData, 100, 0, 0, 0, false⟩
      = SERPAnalyzer.analyze ⟨"laptop", 0, SERPAnalyzer.fallbackSerpData, 100, 0, 0, 0, false⟩ ∧
    AEOAnalyzer.analyze ⟨0, false, false, false, 0, false, 0⟩
      = AEOAnalyzer.analyze ⟨0, false, false, false, 0, false, 0⟩ ∧
    HumanizationAnalyzer.analyze ⟨[], 0, false, 0, 0, 0, false, false, 0, false, false⟩
      = HumanizationAnalyzer.analyze ⟨[], 0, false, 0, 0, 0, false, false, 0, false, false⟩ ∧
    DifferentiationAnalyzer.analyze ⟨false, false, false, 0, 0, 0, 0, 0, false, false, 0, 0, 0, 0⟩
      = DifferentiationAnalyzer.analyze ⟨false, false, false, 0, 0, 0, 0, 0, false, false, 0, 0, 0, 0⟩ := by
  have h := analyzers_deterministic ⟨250, 50, [], "", "", 0⟩ ⟨250, 50, [], "", "", 0⟩
    ⟨"laptop", 0, SERPAnalyzer.fallbackSerpData, 100, 0, 0, 0, false⟩
    ⟨"laptop", 0, SERPAnalyzer.fallbackSerpData, 100, 0, 0, 0, false⟩
    ⟨0, false, false, false, 0, false, 0⟩ ⟨0, false, false, false, 0, false, 0⟩
    ⟨[], 0, false, 0, 0, 0, false, false, 0, false, false⟩
    ⟨[], 0, false, 0, 0, 0, false, false, 0, false, false⟩
    ⟨false, false, false, 0, 0, 0, 0, 0, false, false, 0, 0, 0, 0⟩
    ⟨false, false, false, 0, 0, 0, 0, 0, false, false, 0, 0, 0, 0⟩
  exact ⟨h.1 rfl, h.2.1 rfl, h.2.2.1 rfl, h.2.2.2.1 rfl, h.2.2.2.2 rfl⟩

/-- Claim C2: `overall_score` equals the arithmetic mean of the five
analyzer scores rounded to 1 decimal.  Since the sum of five integers
divided by 5 always has exactly one decimal digit, the rounding is in fact
exact, and the synthetic example [80, 60, 90, 70, 100] yields 80.0. -/
theorem overall_score_is_mean :
    (∀ s1 s2 s3 s4 s5 : Int,
      Aggregate.overallScore s1 s2 s3 s4 s5 = ((s1 + s2 + s3 + s4 + s5 : Int) : ℚ) / 5) ∧
    Aggregate.overallScore 80 60 90 70 100 = 80 := by
  have hint : ∀ n : ℤ, pyRoundHalfEven (n : ℚ) = n := by
    intro n
    simp [pyRoundHalfEven]
  have hgen : ∀ s1 s2 s3 s4 s5 : Int,
      Aggregate.overallScore s1 s2 s3 s4 s5 = ((s1 + s2 + s3 + s4 + s5 : Int) : ℚ) / 5 := by
    intro s1 s2 s3 s4 s5
    have h10 : ((s1 + s2 + s3 + s4 + s5 : Int) : ℚ) / 5 * 10
        = ((2 * (s1 + s2 + s3 + s4 + s5) : ℤ) : ℚ) := by
      push_cast
      ring
    unfold Aggregate.overallScore pyRound1
    rw [h10, hint]
    push_cast
    ring
  refine ⟨hgen, ?_⟩
  rw [hgen]
  norm_num

/-- Claim C4: for every input, `SERPAnalyzer.analyze` with an empty
`target_keyword` returns exactly score 50, exactly one issue, exactly one
recommendation and `details['serp_data'] = None`, independently of the
scraper collaborator's output (the `rf`/`sd` arguments), i.e. without any
further computation. -/
theorem serp_empty_keyword_short_circuit (rf : Nat) (sd : SerpData)
    (uwc hc sc ec : Nat) (hcp : Bool) :
    SERPAnalyzer.analyze ⟨"", rf, sd, uwc, hc, sc, ec, hcp⟩
        = some SERPAnalyzer.emptyKeywordReport ∧
    SERPAnalyzer.emptyKeywordReport.score = 50 ∧
    SERPAnalyzer.emptyKeywordReport.issues = ["No target keyword provided"] ∧
    SERPAnalyzer.emptyKeywordReport.recommendations
        = ["Specify a target keyword for SERP analysis"] ∧
    SERPAnalyzer.emptyKeywordReport.serpData = none := by
  refine ⟨?_, rfl, rfl, rfl, rfl⟩
  simp [SERPAnalyzer.analyze]

/-- Claim C10: the composite `ai_score` of `_detect_ai_patterns` is at most
75 (its five contributions are 15, 20, 15, 10 and 15), so the
`min(ai_score, 100)` cap never binds and an `ai_score` of 100 is
unreachable. -/
theorem ai_score_at_most_75 (i : HumanInput) :
    ∃ p, HumanizationAnalyzer.detectAiPatterns i = some p ∧
      p.1 = HumanizationAnalyzer.rawAiScore i
        (HumanizationAnalyzer.adverbRateQ i.adverbCount i.wordCount) ∧
      p.1 ≤ 75 ∧ p.1 < 100 := by
  have hraw : HumanizationAnalyzer.rawAiScore i
      (HumanizationAnalyzer.adverbRateQ i.adverbCount i.wordCount) ≤ 75 := by
    unfold HumanizationAnalyzer.rawAiScore
    split_ifs <;> omega
  refine ⟨HumanizationAnalyzer.detectAiPatternsVal i, detectAiPatterns_eq i, ?_, ?_, ?_⟩
  · simp only [HumanizationAnalyzer.detectAiPatternsVal]
    omega
  · simp only [HumanizationAnalyzer.detectAiPatternsVal]
    omega
  · simp only [HumanizationAnalyzer.detectAiPatternsVal]
    omega

/-- Claim C3 counterexample: at the reachable SERP position 22 with an
overall score of 60 (< 70), the code computes
`max(3, int(22 * 0.4)) = max(3, 8) = 8`, while the claim's
`max(3, round(22 × 0.4)) = max(3, 9) = 9`. -/
theorem improved_rank_round_counterexample :
    Aggregate.improvedRank 22 60 = 8 ∧
    Aggregate.claimImprovedRank 22 60 = 9 ∧
    Aggregate.improvedRank 22 60 ≠ Aggregate.claimImprovedRank 22 60 := by
  refine ⟨by decide, ?_, ?_⟩ <;>
  · norm_num [Aggregate.claimImprovedRank, Aggregate.improvedRank, Aggregate.pyIntMul04,
      round_eq]
    decide

/-- Claim C3 (amended): the improved rank is `max(3, ⌊current × 0.4⌋)`
(Python `int` truncation of the non-negative product, not rounding) when
the overall score is below 70 and `max(3, ⌊current × 0.6⌋)` otherwise,
with `current` the SERP report's predicted position and defaulting to 20
when the SERP report carried no prediction (empty keyword). -/
theorem improved_rank_uses_floor (current : Nat) (overall : ℚ) :
    Aggregate.improvedRank current overall
        = Aggregate.amendedImprovedRank current overall ∧
    Aggregate.currentRankOf SERPAnalyzer.emptyKeywordReport = 20 := by
  constructor
  · have h4 : (⌊(current : ℚ) * (4/10)⌋).toNat = Aggregate.pyIntMul04 current := by
      have hc : (current : ℚ) * (4/10) = ((2 * current : ℕ) : ℚ) / ((5 : ℕ) : ℚ) := by
        push_cast
        ring
      rw [hc, Int.floor_toNat, Nat.floor_div_nat, Nat.floor_natCast]
      rfl
    have h6 : (⌊(current : ℚ) * (6/10)⌋).toNat = Aggregate.pyIntMul06 current := by
      have hc : (current : ℚ) * (6/10) = ((3 * current : ℕ) : ℚ) / ((5 : ℕ) : ℚ) := by
        push_cast
        ring
      rw [hc, Int.floor_toNat, Nat.floor_div_nat, Nat.floor_natCast]
      rfl
    unfold Aggregate.improvedRank Aggregate.amendedImprovedRank
    rw [h4, h6]
  · rfl

/-- Page arithmetic bridge: for a positive position, Python
`(position - 1) // 10 + 1` is the ceiling of position/10. -/
theorem page_of_ceil (p : ℕ) (hp : 1 ≤ p) :
    (⌈(p : ℚ) / 10⌉).toNat = (p - 1) / 10 + 1 := by
  have hneg : -((p : ℚ) / 10) = ((-(p : ℤ) : ℤ) : ℚ) / ((10 : ℕ) : ℚ) := by
    push_cast
    ring
  have h := Int.floor_neg (a := (p : ℚ) / 10)
  rw [hneg, Rat.floor_intCast_div_natCast] at h
  have hceil : ⌈(p : ℚ) / 10⌉ = -(-(p : ℤ) / (10 : ℤ)) := by omega
  rw [hceil]
  omega

/-- Claim C5: `_predict_ranking` maps (score, word-count ratio) to a
position by the claimed tier table, adds 5 when the user topic count is
below 0.7 of the average, and sets the page to the ceiling of position/10;
in particular score 85 with ratio 0.95 (topic coverage not below 0.7 of
the average) yields position 3. -/
theorem predict_ranking_matches_spec (s : Int) (r : ℚ) (ut avgT : Nat) :
    SERPAnalyzer.predictRanking s r ut avgT
        = SERPAnalyzer.specPredictRanking s r ut avgT ∧
    SERPAnalyzer.predictRanking 85 (95/100) 8 8 = ⟨3, 1⟩ := by
  constructor
  · simp only [SERPAnalyzer.predictRanking, SERPAnalyzer.specPredictRanking]
    rw [show (avgT : ℚ) * (7/10) = (7/10) * (avgT : ℚ) from by ring]
    split_ifs <;> refine congrArg (RankPrediction.mk _) ?_ <;>
      rw [page_of_ceil _ (by norm_num)]
  · norm_num [SERPAnalyzer.predictRanking]

/-- Claim C6: on a 250-word plain-text input with no headers, no meta
description and no target keyword, the SEO analyzer deducts 20 in the first
word-count pass, 15 for the absent header structure, and — stacking with
the first pass, the preserved duplication quirk — a further 20 in the
second content-length pass (the final score is
100 − 20 − 15 − 15(meta) − 20 minus only the readability deduction), and
the issues include one mentioning "too short" and one mentioning
"header". -/
theorem seo_short_content_stacked_deductions (fl : ℚ) (kc : Nat) :
    SEOAnalyzer.wordCountDeduction 250 = 20 ∧
    SEOAnalyzer.headerDeduction "" [] = 15 ∧
    SEOAnalyzer.contentLengthDeduction 250 = 20 ∧
    ∃ r, SEOAnalyzer.analyze ⟨250, fl, [], "", "", kc⟩ = some r ∧
      r.score = 30 - SEOAnalyzer.readabilityDeduction fl ∧
      (∃ s, s ∈ r.issues ∧ strMentions s "too short" = true) ∧
      (∃ s, s ∈ r.issues ∧ strMentions s "header" = true) := by
  have hkb : SEOAnalyzer.keywordBlockVal ⟨250, fl, [], "", "", kc⟩ = (0, [], []) := rfl
  refine ⟨by decide, by decide, by decide,
    SEOAnalyzer.analyzeVal ⟨250, fl, [], "", "", kc⟩, seo_analyze_eq _, ?_, ?_, ?_⟩
  · have hrd : SEOAnalyzer.readabilityDeduction fl ≤ 15 := by
      unfold SEOAnalyzer.readabilityDeduction
      split_ifs <;> omega
    simp only [SEOAnalyzer.analyzeVal, SEOAnalyzer.analyzeBody, hkb]
    norm_num [SEOAnalyzer.wordCountDeduction, SEOAnalyzer.headerDeduction,
      SEOAnalyzer.metaDeduction, SEOAnalyzer.contentLengthDeduction]
    omega
  · refine ⟨"Content is too short (" ++ toString (250 : ℕ)
      ++ " words). Aim for 800-2000 words", ?_, by decide⟩
    simp only [SEOAnalyzer.analyzeVal, SEOAnalyzer.analyzeBody, List.mem_append]
    left; left; left; left; left
    simp [SEOAnalyzer.wordCountIssues]
  · refine ⟨"No header structure detected", ?_, by decide⟩
    simp only [SEOAnalyzer.analyzeVal, SEOAnalyzer.analyzeBody, List.mem_append]
    left; left; right
    simp [SEOAnalyzer.headerIssues]

/-- Fold bridge for C7: the Python membership-guarded accumulation loop of
`_get_top_recommendations` computes keep-first deduplication. -/
theorem foldl_insert_eq_dedup (l : List String) :
    ∀ acc : List String,
      l.foldl (fun uniq r => if r ∈ uniq then uniq else uniq ++ [r]) acc
        = acc ++ Aggregate.dedupKeepFirst (l.filter (fun y => y ∉ acc)) := by
  induction l with
  | nil =>
    intro acc
    simp [Aggregate.dedupKeepFirst]
  | cons x xs ih =>
    intro acc
    rw [List.foldl_cons]
    by_cases hx : x ∈ acc
    · rw [if_pos hx, ih acc]
      have hfil : (x :: xs).filter (fun y => y ∉ acc) = xs.filter (fun y => y ∉ acc) := by
        simp [List.filter_cons, hx]
      rw [hfil]
    · rw [if_neg hx, ih (acc ++ [x])]
      have hfil : (x :: xs).filter (fun y => y ∉ acc)
          = x :: xs.filter (fun y => y ∉ acc) := by
        simp [List.filter_cons, hx]
      rw [hfil]
      simp only [Aggregate.dedupKeepFirst]
      rw [List.append_assoc, List.singleton_append]
      congr 1
      congr 1
      rw [List.filter_filter]
      congr 1
      apply List.filter_congr
      intro a _
      rw [← Bool.decide_and, decide_eq_decide]
      simp only [List.mem_append, List.mem_singleton, not_or]
      tauto

/-- Claim C7: the Aggregator's `top_recommendations` list is the first 2
recommendations of each analyzer report in the fixed order SEO, SERP, AEO,
Humanization, Differentiation, with exact-string duplicates removed
keeping first-occurrence order, truncated to at most 5 entries. -/
theorem top_recommendations_match_spec (r1 r2 r3 r4 r5 : List String) :
    Aggregate.getTopRecommendations [r1, r2, r3, r4, r5]
      = (Aggregate.dedupKeepFirst
          (r1.take 2 ++ r2.take 2 ++ r3.take 2 ++ r4.take 2 ++ r5.take 2)).take 5 := by
  simp only [Aggregate.getTopRecommendations, List.foldl_cons, List.foldl_nil,
    List.nil_append]
  rw [foldl_insert_eq_dedup _ [], List.nil_append]
  congr 1
  congr 1
  exact List.filter_eq_self.mpr (fun a _ => by simp)

end ContentEnhancer
